import Mathlib

/-!
Shallow embedding of `src/lib/src/global_shortcuts.py` (hyprwhspr).

The file models the two classes of the source, `DictationService` and
`GlobalShortcuts`, as Lean structures, and each method as an explicit
state-transition function.  Python truthiness (`None` versus `False`
versus `True`) is modelled by the `PyVal` type, because `is_active`
relies on the semantics of the Python `and` operator.  Fallible external
calls (thread creation, `MainLoop.quit`, `Thread.join`, `SessionBus`,
`bus.publish`, `MainLoop.run`) are modelled by explicit fault selectors
passed to the transition functions; a selector names the call that
raises, or `ok` when nothing raises.  Observable effects that the claims
talk about (spawning the listener thread, setting the running flag,
publishing on the bus, spawning a worker thread per trigger) are
recorded in event traces so that ordering claims can be stated.
-/

/-- Handlers (Python callables) are opaque; only their identity matters. -/
abbrev Handler := Nat

/-- The fragment of Python values the code manipulates: booleans, strings
and `None`.  `is_active` can in principle produce `None` through the
`and` chain, so the model keeps `None` distinct from `False`. -/
inductive PyVal where
  | pyBool : Bool → PyVal
  | pyStr : String → PyVal
  | pyNone : PyVal
  deriving DecidableEq, Repr

/-- Python truthiness of a `PyVal`. -/
def PyVal.isTruthy : PyVal → Bool
  | PyVal.pyBool b => b
  | PyVal.pyStr st => !(st == "")
  | PyVal.pyNone => false

/-- A `threading.Thread` object as far as the code observes it: only
`is_alive()` is ever consulted. -/
structure ThreadHandle where
  alive : Bool
  deriving DecidableEq, Repr

/-- The published D-Bus service object: stateless apart from the handler
reference (`DictationService.__init__`). -/
structure DictationService where
  handler : Option Handler
  deriving DecidableEq, Repr

/-- A worker thread spawned by `DictationService.Trigger`:
`threading.Thread(target=self.handler, daemon=True)`. -/
structure WorkerThread where
  target : Handler
  daemon : Bool
  deriving DecidableEq, Repr

/-- `DictationService.Trigger`: prints a log line, then, if a handler is
registered, starts one daemon worker thread running the handler and
returns immediately (no join, no queueing).  The result is the service
object after the call (the method never mutates it), the list of worker
threads spawned by the call, and the log lines printed. -/
def DictationService.Trigger (svc : DictationService) :
    DictationService × List WorkerThread × List String :=
  match svc.handler with
  | some h => (svc, [{ target := h, daemon := true }], ["D-Bus trigger received"])
  | none => (svc, [], ["D-Bus trigger received"])

/-- The `GlobalShortcuts` object: the fields assigned in
`GlobalShortcuts.__init__` (the local `bus` of the loop thread is not
stored on the object and is omitted; `dbus_loop` is a `GLib.MainLoop`
handle, of which the code only tests truthiness and calls `quit`). -/
structure GlobalShortcuts where
  primary_key : String
  callback : Option Handler
  dbus_service : Option DictationService
  dbus_loop : Option Unit
  listener_thread : Option ThreadHandle
  is_running : Bool
  deriving DecidableEq, Repr

namespace GlobalShortcuts

/-- `GlobalShortcuts.__init__(primary_key, callback, device_path)`:
stores the key label and callback; `device_path` is accepted but never
used by any method. -/
def init (primary_key : String) (callback : Option Handler)
    (device_path : Option String) : GlobalShortcuts :=
  { primary_key := primary_key
    callback := callback
    dbus_service := none
    dbus_loop := none
    listener_thread := none
    is_running := false }

/-- Observable events of the controller methods, used to state ordering
properties. -/
inductive Event where
  | threadSpawn
  | setRunning : Bool → Event
  | publish
  deriving DecidableEq, Repr

/-- Which call inside `start` raises, if any: `threading.Thread(...)`
(the constructor) or `listener_thread.start()`. -/
inductive StartFault where
  | ctorRaises
  | startRaises
  | ok
  deriving DecidableEq, Repr

/-- `GlobalShortcuts.start`: returns `True` at once when already
running; otherwise constructs the listener thread, starts it, and only
then sets `is_running = True`.  Any exception from the constructor or
from `Thread.start` is caught and turned into a `False` return.  The
result carries the new state, the boolean return value, and the event
trace of the call. -/
def start (s : GlobalShortcuts) (f : StartFault) :
    GlobalShortcuts × Bool × List Event :=
  if s.is_running then (s, true, [])
  else
    match f with
    | StartFault.ctorRaises => (s, false, [])
    | StartFault.startRaises =>
        ({ s with listener_thread := some { alive := false } }, false, [])
    | StartFault.ok =>
        ({ s with listener_thread := some { alive := true }, is_running := true },
          true, [Event.threadSpawn, Event.setRunning true])

/-- Which call inside `stop` raises, if any: `dbus_loop.quit()` or
`listener_thread.join(timeout=1.0)`. -/
inductive StopFault where
  | quitRaises
  | joinRaises
  | ok
  deriving DecidableEq, Repr

/-- Truthiness of `self.listener_thread and self.listener_thread.is_alive()`. -/
def threadAlive (s : GlobalShortcuts) : Bool :=
  match s.listener_thread with
  | some t => t.alive
  | none => false

/-- The body of the `try` block of `stop`: quit the loop when one is
present, join the listener thread when it is alive, then clear
`is_running`.  A raising call aborts the rest of the block with an
exception value. -/
def stopBody (s : GlobalShortcuts) (f : StopFault) :
    Except String GlobalShortcuts :=
  if s.dbus_loop.isSome && f == StopFault.quitRaises then
    Except.error "error in quit"
  else if s.threadAlive && f == StopFault.joinRaises then
    Except.error "error in join"
  else
    Except.ok { s with is_running := false }

/-- `GlobalShortcuts.stop`: no-op when not running; otherwise runs
`stopBody` under the `try`/`except` that logs and swallows every
exception.  The boolean is `true` iff an exception escapes to the
caller (it never does). -/
def stop (s : GlobalShortcuts) (f : StopFault) : GlobalShortcuts × Bool :=
  if s.is_running then
    match s.stopBody f with
    | Except.ok s2 => (s2, false)
    | Except.error _ => (s, false)
  else (s, false)

/-- Whether `stop` on a running state hits a raising call: `quit` is
only executed when a loop handle is present, `join` only when the
listener thread is alive. -/
def stopFaulted (s : GlobalShortcuts) (f : StopFault) : Bool :=
  (s.dbus_loop.isSome && f == StopFault.quitRaises) ||
    (s.threadAlive && f == StopFault.joinRaises)

/-- `GlobalShortcuts.is_active`: the Python expression
`self.is_running and self.listener_thread and self.listener_thread.is_alive()`
under Python `and` semantics (returns the first falsy operand, so the
value is `None`, not `False`, when `is_running` is truthy and
`listener_thread` is `None`). -/
def is_active (s : GlobalShortcuts) : PyVal :=
  if s.is_running then
    match s.listener_thread with
    | none => PyVal.pyNone
    | some t => PyVal.pyBool t.alive
  else PyVal.pyBool false

/-- `GlobalShortcuts.set_callback`: stores the callback and, when a
service object exists, propagates the new handler to it. -/
def set_callback (s : GlobalShortcuts) (h : Handler) : GlobalShortcuts :=
  let s2 := { s with callback := some h }
  match s2.dbus_service with
  | some svc => { s2 with dbus_service := some { svc with handler := some h } }
  | none => s2

/-- `GlobalShortcuts.update_shortcut`: stores the new key label and
returns `True`. -/
def update_shortcut (s : GlobalShortcuts) (new_key : String) :
    GlobalShortcuts × Bool :=
  ({ s with primary_key := new_key }, true)

/-- `GlobalShortcuts.get_status`: the dict literal of the source, with
the constant `'method': 'dbus'`. -/
def get_status (s : GlobalShortcuts) : List (String × PyVal) :=
  [("is_running", PyVal.pyBool s.is_running),
   ("is_active", s.is_active),
   ("primary_key", PyVal.pyStr s.primary_key),
   ("method", PyVal.pyStr "dbus")]

/-- Which call inside `_dbus_loop_thread` raises, if any:
`SessionBus()`, `bus.publish(...)`, or `dbus_loop.run()`; `runReturns`
is the non-raising execution in which `run()` eventually returns after
a `quit`. -/
inductive LoopFault where
  | busRaises
  | publishRaises
  | runRaises
  | runReturns
  deriving DecidableEq, Repr

/-- `GlobalShortcuts._dbus_loop_thread`, run on the listener thread:
connects to the bus, stores a fresh service bound to the current
callback, publishes it, stores and runs the main loop.  Any exception
is caught and clears `is_running` from within the thread.  The trace
records whether the publish happened. -/
def dbusLoopThread (s : GlobalShortcuts) (f : LoopFault) :
    GlobalShortcuts × List Event :=
  match f with
  | LoopFault.busRaises => ({ s with is_running := false }, [])
  | LoopFault.publishRaises =>
      ({ s with dbus_service := some { handler := s.callback },
                is_running := false }, [])
  | LoopFault.runRaises =>
      ({ s with dbus_service := some { handler := s.callback },
                dbus_loop := some (),
                is_running := false }, [Event.publish])
  | LoopFault.runReturns =>
      ({ s with dbus_service := some { handler := s.callback },
                dbus_loop := some () }, [Event.publish])

end GlobalShortcuts

open GlobalShortcuts in
/-- One atomic step of the system: any controller method called by the
hosting application with any fault outcome, the body of the listener
thread with any fault outcome, or the environment step in which the
listener thread exits (its handle stops reporting alive). -/
inductive Step : GlobalShortcuts → GlobalShortcuts → Prop where
  | start (s : GlobalShortcuts) (f : StartFault) : Step s (s.start f).1
  | stop (s : GlobalShortcuts) (f : StopFault) : Step s (s.stop f).1
  | set_callback (s : GlobalShortcuts) (h : Handler) : Step s (s.set_callback h)
  | update_shortcut (s : GlobalShortcuts) (k : String) :
      Step s (s.update_shortcut k).1
  | loopBody (s : GlobalShortcuts) (f : LoopFault) : Step s (s.dbusLoopThread f).1
  | threadExit (s : GlobalShortcuts) :
      Step s { s with
        listener_thread := s.listener_thread.map (fun _ => { alive := false }) }

/-- States reachable from some freshly constructed controller by any
sequence of steps. -/
def Reachable (s : GlobalShortcuts) : Prop :=
  ∃ pk cb dp, Relation.ReflTransGen Step (GlobalShortcuts.init pk cb dp) s

/-- Invariant: a running controller has a listener-thread object. -/
def RunImpliesThread (s : GlobalShortcuts) : Prop :=
  s.is_running = true → s.listener_thread.isSome = true

/-- Invariant: an existing service object carries the controller's
current callback. -/
def ServiceConsistent (s : GlobalShortcuts) : Prop :=
  ∀ svc, s.dbus_service = some svc → svc.handler = s.callback

/-- Whether event `a` occurs strictly before event `b` in a trace. -/
def precedes (a b : GlobalShortcuts.Event) (tr : List GlobalShortcuts.Event) :
    Bool :=
  match tr.findIdx? (fun e => e == a), tr.findIdx? (fun e => e == b) with
  | some i, some j => Nat.blt i j
  | _, _ => false

/-- A freshly constructed controller, as in the source's own self-test. -/
def freshState : GlobalShortcuts := GlobalShortcuts.init "<f12>" none none

/-- A controller in the steady running state: thread spawned and alive,
service published with the callback, loop handle present. -/
def runningState : GlobalShortcuts :=
  { primary_key := "<f12>"
    callback := some 0
    dbus_service := some { handler := some 0 }
    dbus_loop := some ()
    listener_thread := some { alive := true }
    is_running := true }

/-- `stop` characterised through `stopFaulted`: no-op when not running,
state unchanged when a call raised, flag cleared otherwise; never an
escaping exception. -/
theorem stop_spec (s : GlobalShortcuts) (f : GlobalShortcuts.StopFault) :
    s.stop f =
      if s.is_running = false then (s, false)
      else if s.stopFaulted f = true then (s, false)
      else ({ s with is_running := false }, false) := by
  unfold GlobalShortcuts.stop GlobalShortcuts.stopBody GlobalShortcuts.stopFaulted
  by_cases hr : s.is_running <;>
    by_cases hq : s.dbus_loop.isSome && f == GlobalShortcuts.StopFault.quitRaises <;>
      by_cases hj : s.threadAlive && f == GlobalShortcuts.StopFault.joinRaises <;>
        simp [hr, hq, hj]

/-- Every step preserves `RunImpliesThread`. -/
theorem step_runImpliesThread {s t : GlobalShortcuts} (hst : Step s t)
    (hs : RunImpliesThread s) : RunImpliesThread t := by
  unfold RunImpliesThread at hs ⊢
  cases hst with
  | start f =>
    by_cases hr : s.is_running
    · simpa [GlobalShortcuts.start, hr] using hs
    · cases f <;> simp [GlobalShortcuts.start, hr] <;> exact fun h => hs h
  | stop f =>
    rw [stop_spec]
    by_cases hr : s.is_running = false
    · simpa [hr] using hs
    · by_cases hf : s.stopFaulted f = true <;> simp [hr, hf] <;>
        exact hs (by revert hr; cases s.is_running <;> simp)
  | set_callback h =>
    unfold GlobalShortcuts.set_callback
    cases hsvc : s.dbus_service <;> simp [hsvc] <;> exact fun h2 => hs h2
  | update_shortcut k =>
    simpa [GlobalShortcuts.update_shortcut] using hs
  | loopBody f =>
    cases f <;> simp [GlobalShortcuts.dbusLoopThread] <;> exact fun h => hs h
  | threadExit =>
    intro h
    have hth2 := hs h
    cases hth : s.listener_thread <;> simp [hth] <;> simp [hth] at hth2

/-- Every step preserves `ServiceConsistent`. -/
theorem step_serviceConsistent {s t : GlobalShortcuts} (hst : Step s t)
    (hs : ServiceConsistent s) : ServiceConsistent t := by
  unfold ServiceConsistent at hs ⊢
  cases hst with
  | start f =>
    by_cases hr : s.is_running
    · simpa [GlobalShortcuts.start, hr] using hs
    · cases f <;> simp [GlobalShortcuts.start, hr] <;> exact fun svc h => hs svc h
  | stop f =>
    rw [stop_spec]
    by_cases hr : s.is_running = false
    · simpa [hr] using hs
    · by_cases hf : s.stopFaulted f = true <;> simp [hr, hf] <;>
        exact fun svc h => hs svc h
  | set_callback h =>
    unfold GlobalShortcuts.set_callback
    cases hsvc : s.dbus_service <;> simp [hsvc]
  | update_shortcut k =>
    simpa [GlobalShortcuts.update_shortcut] using hs
  | loopBody f =>
    cases f <;> simp [GlobalShortcuts.dbusLoopThread] <;>
      exact fun svc h => hs svc h
  | threadExit =>
    exact fun svc h => hs svc h

/-- A freshly constructed controller satisfies both invariants. -/
theorem init_invariants (pk : String) (cb : Option Handler) (dp : Option String) :
    RunImpliesThread (GlobalShortcuts.init pk cb dp) ∧
      ServiceConsistent (GlobalShortcuts.init pk cb dp) := by
  constructor
  · intro h
    simp [GlobalShortcuts.init] at h
  · intro svc h
    simp [GlobalShortcuts.init] at h

/-- Every reachable state satisfies `RunImpliesThread`. -/
theorem reachable_runImpliesThread {s : GlobalShortcuts} (hs : Reachable s) :
    RunImpliesThread s := by
  obtain ⟨pk, cb, dp, hr⟩ := hs
  induction hr with
  | refl => exact (init_invariants pk cb dp).1
  | tail _ hbc ih => exact step_runImpliesThread hbc ih

/-- Every reachable state satisfies `ServiceConsistent`. -/
theorem reachable_serviceConsistent {s : GlobalShortcuts} (hs : Reachable s) :
    ServiceConsistent s := by
  obtain ⟨pk, cb, dp, hr⟩ := hs
  induction hr with
  | refl => exact (init_invariants pk cb dp).2
  | tail _ hbc ih => exact step_serviceConsistent hbc ih

/-- Under `RunImpliesThread`, `is_active` evaluates to a genuine
boolean. -/
theorem is_active_bool {s : GlobalShortcuts} (hs : RunImpliesThread s) :
    ∃ b, s.is_active = PyVal.pyBool b := by
  unfold GlobalShortcuts.is_active
  by_cases hr : s.is_running
  · have hth := hs hr
    cases hth2 : s.listener_thread with
    | none => simp [hth2] at hth
    | some t => exact ⟨t.alive, by simp [hr, hth2]⟩
  · exact ⟨false, by simp [hr]⟩

/-- The steady running state is reachable: construct with callback `0`,
`start` without fault, then run the loop-thread body without fault. -/
theorem reachable_runningState : Reachable runningState := by
  refine ⟨"<f12>", some 0, none, ?_⟩
  refine Relation.ReflTransGen.tail
    (Relation.ReflTransGen.tail Relation.ReflTransGen.refl
      (Step.start (GlobalShortcuts.init "<f12>" (some 0) none)
        GlobalShortcuts.StartFault.ok)) ?_
  have h := Step.loopBody
    ((GlobalShortcuts.init "<f12>" (some 0) none).start
      GlobalShortcuts.StartFault.ok).1
    GlobalShortcuts.LoopFault.runReturns
  have he : (((GlobalShortcuts.init "<f12>" (some 0) none).start
      GlobalShortcuts.StartFault.ok).1.dbusLoopThread
        GlobalShortcuts.LoopFault.runReturns).1 = runningState := rfl
  rw [he] at h
  exact h

/-- C1 counterexample: on a running controller with a loop handle, a
raising `quit()` is caught, so `stop()` returns normally, but
`is_running` is still `true` afterwards — the assignment
`self.is_running = False` sits inside the `try` block and is skipped by
the exception. -/
theorem c1_counterexample :
    runningState.is_running = true ∧
    (runningState.stop GlobalShortcuts.StopFault.quitRaises).2 = false ∧
    (runningState.stop GlobalShortcuts.StopFault.quitRaises).1.is_running
      = true := by
  decide

/-- C1 (amended): `stop()` on a running controller always returns
normally (no exception escapes); when no call inside the `try` block
raises, the running flag is cleared afterwards; when `quit()` or
`join()` raises, the exception is caught but the state, the running
flag included, is left unchanged (still running). -/
theorem c1_stop_amended (s : GlobalShortcuts) (f : GlobalShortcuts.StopFault)
    (hrun : s.is_running = true) :
    (s.stop f).2 = false ∧
    (s.stopFaulted f = false → (s.stop f).1.is_running = false) ∧
    (s.stopFaulted f = true → (s.stop f).1 = s) := by
  rw [stop_spec]
  by_cases hf : s.stopFaulted f = true <;> simp [hrun, hf]

/-- C1 witness: the amended theorem at the running example state with
no fault. -/
theorem c1_stop_amended_witness :
    (runningState.stop GlobalShortcuts.StopFault.ok).2 = false ∧
    (runningState.stopFaulted GlobalShortcuts.StopFault.ok = false →
      (runningState.stop GlobalShortcuts.StopFault.ok).1.is_running = false) ∧
    (runningState.stopFaulted GlobalShortcuts.StopFault.ok = true →
      (runningState.stop GlobalShortcuts.StopFault.ok).1 = runningState) :=
  c1_stop_amended runningState GlobalShortcuts.StopFault.ok rfl

/-- C2 counterexample: starting a fresh, non-running controller with no
fault produces the trace `[threadSpawn, setRunning true]` — the running
flag is set after the thread is spawned, not before as the claim
states. -/
theorem c2_counterexample :
    freshState.is_running = false ∧
    (freshState.start GlobalShortcuts.StartFault.ok).2.2 =
      [GlobalShortcuts.Event.threadSpawn,
        GlobalShortcuts.Event.setRunning true] ∧
    precedes (GlobalShortcuts.Event.setRunning true)
      GlobalShortcuts.Event.threadSpawn
      (freshState.start GlobalShortcuts.StartFault.ok).2.2 = false := by
  decide

/-- C2 (amended): on a non-running controller, `start()` returns
`false` exactly when creating or starting the thread raises; on the
non-raising path it sets the running flag immediately after spawning
the thread (spawn strictly precedes the flag update in the trace) and
returns `true`; the call never publishes on the bus itself (the publish
happens on the spawned thread); on a raising path the flag stays
`false`. -/
theorem c2_start_amended (s : GlobalShortcuts) (f : GlobalShortcuts.StartFault)
    (hrun : s.is_running = false) :
    ((s.start f).2.1 = false ↔ f ≠ GlobalShortcuts.StartFault.ok) ∧
    (f = GlobalShortcuts.StartFault.ok →
      (s.start f).1.is_running = true ∧
      (s.start f).2.2 =
        [GlobalShortcuts.Event.threadSpawn,
          GlobalShortcuts.Event.setRunning true] ∧
      precedes GlobalShortcuts.Event.threadSpawn
        (GlobalShortcuts.Event.setRunning true) (s.start f).2.2 = true) ∧
    (f ≠ GlobalShortcuts.StartFault.ok → (s.start f).1.is_running = false) ∧
    GlobalShortcuts.Event.publish ∉ (s.start f).2.2 := by
  cases f <;> simp [GlobalShortcuts.start, hrun] <;> decide

/-- C2 witness: the amended theorem at the fresh state with no fault. -/
theorem c2_start_amended_witness :
    ((freshState.start GlobalShortcuts.StartFault.ok).2.1 = false ↔
      GlobalShortcuts.StartFault.ok ≠ GlobalShortcuts.StartFault.ok) ∧
    (GlobalShortcuts.StartFault.ok = GlobalShortcuts.StartFault.ok →
      (freshState.start GlobalShortcuts.StartFault.ok).1.is_running = true ∧
      (freshState.start GlobalShortcuts.StartFault.ok).2.2 =
        [GlobalShortcuts.Event.threadSpawn,
          GlobalShortcuts.Event.setRunning true] ∧
      precedes GlobalShortcuts.Event.threadSpawn
        (GlobalShortcuts.Event.setRunning true)
        (freshState.start GlobalShortcuts.StartFault.ok).2.2 = true) ∧
    (GlobalShortcuts.StartFault.ok ≠ GlobalShortcuts.StartFault.ok →
      (freshState.start GlobalShortcuts.StartFault.ok).1.is_running = false) ∧
    GlobalShortcuts.Event.publish ∉
      (freshState.start GlobalShortcuts.StartFault.ok).2.2 :=
  c2_start_amended freshState GlobalShortcuts.StartFault.ok rfl

/-- C3 counterexample: `get_status` returns the constant string
`"dbus"` under the `method` key, not `"bus-ipc"` as the claim states. -/
theorem c3_counterexample :
    (freshState.get_status).lookup "method" = some (PyVal.pyStr "dbus") ∧
      PyVal.pyStr "dbus" ≠ PyVal.pyStr "bus-ipc" := by
  constructor
  · rfl
  · decide

/-- C3 (amended): for every reachable controller state, `get_status`
returns a mapping with exactly the keys `is_running`, `is_active`,
`primary_key` and `method`, in which `is_running` is the boolean
running flag, `is_active` is a genuine boolean, `primary_key` is the
current label string, and `method` is the fixed transport-identifying
string constant `"dbus"`, independent of the controller state. -/
theorem c3_get_status_amended (s : GlobalShortcuts) (hs : Reachable s) :
    (s.get_status).map Prod.fst =
      ["is_running", "is_active", "primary_key", "method"] ∧
    (s.get_status).lookup "is_running" = some (PyVal.pyBool s.is_running) ∧
    (∃ b, (s.get_status).lookup "is_active" = some (PyVal.pyBool b)) ∧
    (s.get_status).lookup "primary_key" = some (PyVal.pyStr s.primary_key) ∧
    (s.get_status).lookup "method" = some (PyVal.pyStr "dbus") := by
  obtain ⟨b, hb⟩ := is_active_bool (reachable_runImpliesThread hs)
  refine ⟨rfl, rfl, ⟨b, ?_⟩, rfl, rfl⟩
  have hlk : (s.get_status).lookup "is_active" = some s.is_active := rfl
  rw [hlk, hb]

/-- C3 witness: the amended theorem at the fresh state. -/
theorem c3_get_status_amended_witness :
    (freshState.get_status).map Prod.fst =
      ["is_running", "is_active", "primary_key", "method"] ∧
    (freshState.get_status).lookup "is_running" =
      some (PyVal.pyBool freshState.is_running) ∧
    (∃ b, (freshState.get_status).lookup "is_active" =
      some (PyVal.pyBool b)) ∧
    (freshState.get_status).lookup "primary_key" =
      some (PyVal.pyStr freshState.primary_key) ∧
    (freshState.get_status).lookup "method" = some (PyVal.pyStr "dbus") :=
  c3_get_status_amended freshState ⟨"<f12>", none, none, Relation.ReflTransGen.refl⟩

/-- C4: in every reachable state, an existing service object carries
exactly the controller's current callback as its handler, and
`set_callback h` leaves the service (when present) holding `h` — never
a stale handler. -/
theorem c4_service_handler_consistent (s : GlobalShortcuts) (hs : Reachable s) :
    (∀ svc, s.dbus_service = some svc → svc.handler = s.callback) ∧
    (∀ h svc, (s.set_callback h).dbus_service = some svc →
      svc.handler = some h) := by
  refine ⟨reachable_serviceConsistent hs, ?_⟩
  intro h svc
  unfold GlobalShortcuts.set_callback
  cases hsvc : s.dbus_service <;> simp [hsvc]
  intro h2
  rw [← h2]

/-- C4 witness: in the reachable running state the published service
holds the current callback, and after `set_callback 5` it holds `5`. -/
theorem c4_service_handler_consistent_witness :
    runningState.dbus_service = some { handler := some 0 } ∧
    DictationService.handler { handler := some 0 } = runningState.callback ∧
    (runningState.set_callback 5).dbus_service = some { handler := some 5 } ∧
    DictationService.handler { handler := some 5 } = some 5 :=
  ⟨rfl,
    (c4_service_handler_consistent runningState reachable_runningState).1
      { handler := some 0 } rfl,
    rfl,
    (c4_service_handler_consistent runningState reachable_runningState).2 5
      { handler := some 5 } rfl⟩

/-- C5: a `Trigger()` call on a service with a registered handler
leaves the service unchanged, spawns exactly one worker thread, whose
target is that handler and which is detached (`daemon=True`), and logs
one line; nothing is queued, deduplicated or dropped, and no join on
the worker occurs (the call's only effects are this one spawn and the
log). -/
theorem c5_trigger_dispatch (svc : DictationService) (h : Handler)
    (hh : svc.handler = some h) :
    svc.Trigger =
      (svc, [{ target := h, daemon := true }], ["D-Bus trigger received"]) := by
  simp [DictationService.Trigger, hh]

/-- C5 witness: the dispatch theorem at the service holding handler
`0`. -/
theorem c5_trigger_dispatch_witness :
    DictationService.Trigger { handler := some 0 } =
      ({ handler := some 0 }, [{ target := 0, daemon := true }],
        ["D-Bus trigger received"]) :=
  c5_trigger_dispatch { handler := some 0 } 0 rfl

/-- C6: a `Trigger()` call on a service with no registered handler
completes (no error value exists in the result), spawns no worker
thread, leaves the service unchanged, and its only effect is the log
line. -/
theorem c6_trigger_no_handler (svc : DictationService)
    (hh : svc.handler = none) :
    svc.Trigger = (svc, [], ["D-Bus trigger received"]) := by
  simp [DictationService.Trigger, hh]

/-- C6 witness: the no-handler theorem at the empty service. -/
theorem c6_trigger_no_handler_witness :
    DictationService.Trigger { handler := none } =
      ({ handler := none }, [], ["D-Bus trigger received"]) :=
  c6_trigger_no_handler { handler := none } rfl

/-- C7: `start()` on an already-running controller returns `true`
immediately, whatever the fault selector, leaving the state identical
and producing no events — no second thread spawn, no publish. -/
theorem c7_start_idempotent (s : GlobalShortcuts)
    (f : GlobalShortcuts.StartFault) (hrun : s.is_running = true) :
    s.start f = (s, true, []) := by
  simp [GlobalShortcuts.start, hrun]

/-- C7 witness: the idempotence theorem at the running example state. -/
theorem c7_start_idempotent_witness :
    runningState.start GlobalShortcuts.StartFault.ok =
      (runningState, true, []) :=
  c7_start_idempotent runningState GlobalShortcuts.StartFault.ok rfl

/-- C8: the truthiness of the value returned by `is_active` equals the
conjunction of the running flag with the listener thread existing and
reporting itself alive; in particular, whenever the running flag is
false the returned value is the boolean `False` itself. -/
theorem c8_is_active_spec (s : GlobalShortcuts) :
    (s.is_active).isTruthy = (s.is_running && s.threadAlive) ∧
    (s.is_running = false → s.is_active = PyVal.pyBool false) := by
  constructor
  · cases hr : s.is_running <;> cases hth : s.listener_thread <;>
      simp [GlobalShortcuts.is_active, GlobalShortcuts.threadAlive,
        PyVal.isTruthy, hr, hth]
  · intro hr
    simp [GlobalShortcuts.is_active, hr]

/-- C8 witness: the `is_active` characterisation at the running example
state. -/
theorem c8_is_active_spec_witness :
    (runningState.is_active).isTruthy =
      (runningState.is_running && runningState.threadAlive) ∧
    (runningState.is_running = false →
      runningState.is_active = PyVal.pyBool false) :=
  c8_is_active_spec runningState

/-- C9: for every state and label, `update_shortcut` returns `true`,
sets the primary-key label (so `get_status` reports it), and changes no
other field: callback, service, loop handle, listener thread and
running flag are all unchanged. -/
theorem c9_update_shortcut_frame (s : GlobalShortcuts) (k : String) :
    (s.update_shortcut k).2 = true ∧
    (s.update_shortcut k).1.primary_key = k ∧
    ((s.update_shortcut k).1.get_status).lookup "primary_key" =
      some (PyVal.pyStr k) ∧
    (s.update_shortcut k).1.callback = s.callback ∧
    (s.update_shortcut k).1.dbus_service = s.dbus_service ∧
    (s.update_shortcut k).1.dbus_loop = s.dbus_loop ∧
    (s.update_shortcut k).1.listener_thread = s.listener_thread ∧
    (s.update_shortcut k).1.is_running = s.is_running :=
  ⟨rfl, rfl, rfl, rfl, rfl, rfl, rfl, rfl⟩

/-- C10: every reachable state satisfies the implicit invariant that a
true running flag comes with an existing listener-thread object, and
consequently `is_active` evaluates to a genuine boolean (never the
Python `None` that its `and` chain could otherwise produce). -/
theorem c10_running_implies_thread (s : GlobalShortcuts) (hs : Reachable s) :
    (s.is_running = true → s.listener_thread.isSome = true) ∧
    (∃ b, s.is_active = PyVal.pyBool b) := by
  have h := reachable_runImpliesThread hs
  exact ⟨h, is_active_bool h⟩

/-- C10 witness: the invariant at the reachable running example
state. -/
theorem c10_running_implies_thread_witness :
    (runningState.is_running = true →
      runningState.listener_thread.isSome = true) ∧
    (∃ b, runningState.is_active = PyVal.pyBool b) :=
  c10_running_implies_thread runningState reachable_runningState
